import Mathlib

/-!
A shallow embedding of `pdf_converter.py` (CheHyeonYeong/pdfToJpg).

The program converts a PDF into per-page images: it enumerates page indices,
renders every page in a process pool (each page's exceptions are caught inside
`convert_page` and returned as an error tuple), collects results in completion
order, sorts the successful results by page index, writes one file per
successful result into an output directory, and optionally bundles the written
files into a zip archive beside the source file.

External effects are modelled by explicit parameters:
  * `render i` is the outcome of the PyMuPDF calls for page `i`
    (`fitz.open`, page access, `get_pixmap`, `tobytes`) under the run's fixed
    dpi / format / quality: either the encoded bytes or the exception message.
  * `order` is the completion order of the pool's futures (`as_completed`);
    theorems take it as an arbitrary permutation of `List.range num_pages`.
  * `writeOk name` says whether writing file `name` succeeds
    (`open`/`write`); the Python code has no try/except around the write loop,
    so a failing write raises and the exception propagates.
  * `zipOk` says whether creating the zip archive succeeds; again the code has
    no try/except around it.
  * `pathExists` models `pdf_path.exists()` and `openResult` models the
    metadata load `fitz.open(str(pdf_path))` (`some num_pages` on success,
    `none` when it raises).

Paths are modelled as strings, `Path.parent / x` as `parent ++ "/" ++ x`.
-/

/-- The tuple returned by `convert_page`: either
`(page_num, img_data, ext, None)` or `(page_num, None, None, str(e))`. -/
inductive PageResult where
  | ok (page_num : Nat) (img_data : String) (ext : String)
  | err (page_num : Nat) (msg : String)
deriving DecidableEq, Repr

/-- A collected successful result `(page_num, img_data, ext)`, as appended to
the `results` list in `convert_pdf_to_images`. -/
structure RenderResult where
  page_num : Nat
  img_data : String
  ext : String
deriving DecidableEq, Repr

/-- ASCII lower-casing of one character, as `str.lower()` acts on the
format names (`'jpeg'`, `'png'`, `'PNG'`, ...). -/
def lowerChar (c : Char) : Char :=
  if 'A' ≤ c ∧ c ≤ 'Z' then Char.ofNat (c.toNat + 32) else c

/-- `img_format.lower()`. -/
def strLower (s : String) : String :=
  String.mk (s.data.map lowerChar)

/-- The extension chosen inside `convert_page`: `'png'` when
`img_format.lower() == 'png'`, else `'jpg'` (the jpeg branch). -/
def imgExt (img_format : String) : String :=
  if strLower img_format == "png" then "png" else "jpg"

/-- `convert_page(args)`: renders one page; every exception is caught and
turned into an error tuple carrying `str(e)`.  `render` stands for the fitz
rendering pipeline for this run's fixed dpi/format/quality. -/
def convert_page (render : Nat → Except String String) (img_format : String)
    (page_num : Nat) : PageResult :=
  match render page_num with
  | .ok data => .ok page_num data (imgExt img_format)
  | .error e => .err page_num e

/-- One iteration of the `for future in as_completed(futures)` loop:
an error is printed as `페이지 {page_num + 1} 변환 실패` (recorded here as the
1-based page number), a success is appended to `results`. -/
def collectStep (acc : List RenderResult × List Nat) (pr : PageResult) :
    List RenderResult × List Nat :=
  match pr with
  | .ok n d e => (acc.1 ++ [⟨n, d, e⟩], acc.2)
  | .err n _ => (acc.1, acc.2 ++ [n + 1])

/-- The sort key of `results.sort(key=lambda x: x[0])`. -/
def pageLE (a b : RenderResult) : Prop :=
  a.page_num ≤ b.page_num

instance : DecidableRel pageLE := fun a b => Nat.decLe a.page_num b.page_num

instance : IsTotal RenderResult pageLE := ⟨fun a b => Nat.le_total _ _⟩

instance : IsTrans RenderResult pageLE := ⟨fun _ _ _ => Nat.le_trans⟩

/-- Strict version of the sort key, used to state uniqueness of page indices. -/
def pageLT (a b : RenderResult) : Prop :=
  a.page_num < b.page_num

instance : IsAntisymm RenderResult pageLT :=
  ⟨fun _ _ h h' => absurd h' (Nat.lt_asymm h)⟩

/-- Python's `f"{n:03d}"`: the decimal digits of `n`, left-padded with zeros
to a minimum width of 3. -/
def padNum3 (n : Nat) : String :=
  let s := toString n
  if s.length < 3 then String.mk (List.replicate (3 - s.length) '0') ++ s else s

/-- `f"page_{page_num + 1:03d}.{ext}"`. -/
def fileName (page_num : Nat) (ext : String) : String :=
  "page_" ++ padNum3 (page_num + 1) ++ "." ++ ext

/-- `ext = results[0][2] if results else 'jpg'`, applied to the sorted list. -/
def chosenExt : List RenderResult → String
  | [] => "jpg"
  | r :: _ => r.ext

/-- The file-saving loop.  Each iteration opens `output_dir / filename` and
writes the bytes; there is no exception handling, so the first failing write
raises, leaving the files written so far on disk and skipping the rest.
Returns the list of saved file names (the `saved_files` list, as base names)
and `some name` when the write of `name` raised. -/
def writeImages (writeOk : String → Bool) (ext : String) :
    List RenderResult → List String × Option String
  | [] => ([], none)
  | r :: rs =>
    let fname := fileName r.page_num ext
    if writeOk fname then
      let rest := writeImages writeOk ext rs
      (fname :: rest.1, rest.2)
    else
      ([], some fname)

/-- `Path.parent / name` for string-modelled paths. -/
def pathJoin (a b : String) : String :=
  a ++ "/" ++ b

/-- How the run of `convert_pdf_to_images` ends: `return True`,
`return False`, or an uncaught exception escaping the function. -/
inductive RunOutcome where
  | retTrue | retFalse | exn
deriving DecidableEq, Repr

/-- Observable effects of one call of `convert_pdf_to_images`. -/
structure RunResult where
  /-- whether `output_dir.mkdir(exist_ok=True)` ran -/
  mkdirDone : Bool
  /-- the output directory used -/
  outputDir : String
  /-- page indices submitted to the pool (`tasks`) -/
  attempted : List Nat
  /-- 1-based page numbers printed as conversion failures -/
  reported : List Nat
  /-- `results` after `results.sort(key=lambda x: x[0])` -/
  ordered : List RenderResult
  /-- base names of the page files present in `outputDir` at the end -/
  savedFiles : List String
  /-- path of the completed archive, when one was fully created -/
  zipPath : Option String
  /-- member names written into the archive, in insertion order -/
  zipMembers : List String
  /-- how the call ended -/
  outcome : RunOutcome
deriving DecidableEq, Repr

/-- `convert_pdf_to_images`.  Mirrors the source line by line: existence
check, default output directory, `mkdir`, metadata load, task list, pooled
conversion collected in completion order `order`, sort by page index,
extension taken from the first sorted result, write loop, then optional zip
of `saved_files` (members named by `file.name`) when `create_zip` and
`saved_files` is non-empty.  `num_workers` only bounds the pool size and has
no effect on the computed results. -/
def convert_pdf_to_images (parent stem : String) (pathExists : Bool)
    (openResult : Option Nat) (output_dir : Option String)
    (img_format : String) (create_zip : Bool) (num_workers : Nat)
    (render : Nat → Except String String) (order : List Nat)
    (writeOk : String → Bool) (zipOk : Bool) : RunResult :=
  if pathExists = false then
    { mkdirDone := false, outputDir := "", attempted := [], reported := [],
      ordered := [], savedFiles := [], zipPath := none, zipMembers := [],
      outcome := .retFalse }
  else
    let outDir := match output_dir with
      | none => pathJoin parent (stem ++ "_images")
      | some d => d
    match openResult with
    | none =>
      { mkdirDone := true, outputDir := outDir, attempted := [],
        reported := [], ordered := [], savedFiles := [], zipPath := none,
        zipMembers := [], outcome := .retFalse }
    | some num_pages =>
      let _ := num_workers
      let tasks := List.range num_pages
      let collected := (order.map (convert_page render img_format)).foldl
        collectStep ([], [])
      let ordered := List.insertionSort pageLE collected.1
      let ext := chosenExt ordered
      let written := writeImages writeOk ext ordered
      let zipRuns := written.2 = none ∧ create_zip = true ∧ written.1 ≠ []
      { mkdirDone := true, outputDir := outDir, attempted := tasks,
        reported := collected.2, ordered := ordered, savedFiles := written.1,
        zipPath := if zipRuns ∧ zipOk = true
          then some (pathJoin parent (stem ++ "_images.zip")) else none,
        zipMembers := if zipRuns ∧ zipOk = true then written.1 else [],
        outcome := if written.2 ≠ none then .exn
          else if zipRuns ∧ zipOk = false then .exn
          else .retTrue }

/-- Observable effects of one run of `main`. -/
structure MainResult where
  /-- the process exit code (`sys.exit`, or 1 on an uncaught exception) -/
  exitCode : Nat
  /-- whether `convert_pdf_to_images` was invoked at all -/
  invoked : Bool
  /-- the conversion run, when it was invoked -/
  run : Option RunResult
deriving DecidableEq, Repr

/-- `main`: validates `quality` (`sys.exit(1)` when outside 1..100, before any
conversion), then runs the conversion and exits `0` on `return True`, `1` on
`return False`; an uncaught exception also ends the process with code 1. -/
def mainRun (quality : Int) (parent stem : String) (pathExists : Bool)
    (openResult : Option Nat) (output_dir : Option String)
    (img_format : String) (no_zip : Bool) (num_workers : Nat)
    (render : Nat → Except String String) (order : List Nat)
    (writeOk : String → Bool) (zipOk : Bool) : MainResult :=
  if quality < 1 ∨ 100 < quality then
    { exitCode := 1, invoked := false, run := none }
  else
    let r := convert_pdf_to_images parent stem pathExists openResult
      output_dir img_format (!no_zip) num_workers render order writeOk zipOk
    { exitCode := match r.outcome with
        | .retTrue => 0
        | .retFalse => 1
        | .exn => 1,
      invoked := true, run := some r }

/-- The success entry produced for page `i`, when its render succeeds. -/
def toResult : PageResult → Option RenderResult
  | .ok n d e => some ⟨n, d, e⟩
  | .err _ _ => none

/-- The 1-based page number reported for page `i`, when its render fails. -/
def toFailure : PageResult → Option Nat
  | .ok _ _ _ => none
  | .err n _ => some (n + 1)

/-- The canonical sequencer output: one entry per successfully rendered page,
in ascending page order. -/
def successEntries (render : Nat → Except String String) (img_format : String)
    (n : Nat) : List RenderResult :=
  (List.range n).filterMap (fun i => toResult (convert_page render img_format i))

/-! ### Helper lemmas about the collection, sorting and writing stages -/

/-- Classifier for the modelled render outcome. -/
def isOkE : Except String String → Bool
  | .ok _ => true
  | .error _ => false

/-- The bytes of a successful render (dummy on failure). -/
def okData : Except String String → String
  | .ok d => d
  | .error _ => ""

theorem foldl_collectStep (l : List PageResult) (acc : List RenderResult)
    (rep : List Nat) :
    l.foldl collectStep (acc, rep) =
      (acc ++ l.filterMap toResult, rep ++ l.filterMap toFailure) := by
  induction l generalizing acc rep with
  | nil => simp
  | cons p l ih =>
    cases p with
    | ok n d e =>
      simp [collectStep, toResult, toFailure, ih, List.filterMap_cons]
    | err n m =>
      simp [collectStep, toResult, toFailure, ih, List.filterMap_cons]

theorem toResult_page_num (render : Nat → Except String String) (fmt : String)
    (i : Nat) (r : RenderResult)
    (h : toResult (convert_page render fmt i) = some r) : r.page_num = i := by
  cases hr : render i with
  | ok d =>
    simp [convert_page, toResult, hr] at h
    subst h; rfl
  | error e => simp [convert_page, toResult, hr] at h

theorem pairwise_lt_successEntries (render : Nat → Except String String)
    (fmt : String) (n : Nat) : (successEntries render fmt n).Pairwise pageLT := by
  unfold successEntries
  refine List.Pairwise.filterMap _ ?_ (List.pairwise_lt_range n)
  intro a a' hlt b hb b' hb'
  have hb := toResult_page_num render fmt a b (Option.mem_def.mp hb)
  have hb' := toResult_page_num render fmt a' b' (Option.mem_def.mp hb')
  simpa [pageLT, hb, hb'] using hlt

theorem sorted_run_eq (render : Nat → Except String String) (fmt : String)
    (n : Nat) (order : List Nat) (horder : order.Perm (List.range n)) :
    List.insertionSort pageLE
        (order.filterMap (fun i => toResult (convert_page render fmt i))) =
      successEntries render fmt n := by
  have hperm : (List.insertionSort pageLE
      (order.filterMap (fun i => toResult (convert_page render fmt i)))).Perm
        (successEntries render fmt n) :=
    (List.perm_insertionSort pageLE _).trans
      (horder.filterMap (fun i => toResult (convert_page render fmt i)))
  have hs2 : (successEntries render fmt n).Sorted pageLT :=
    pairwise_lt_successEntries render fmt n
  have hle : (List.insertionSort pageLE
      (order.filterMap (fun i => toResult (convert_page render fmt i)))).Sorted
        pageLE := List.sorted_insertionSort pageLE _
  have hndS : ((successEntries render fmt n).map RenderResult.page_num).Nodup := by
    have hp : List.Pairwise
        (fun a b : RenderResult => a.page_num < b.page_num)
        (successEntries render fmt n) := hs2
    exact List.pairwise_map.mpr (hp.imp fun h => Nat.ne_of_lt h)
  have hnd : ((List.insertionSort pageLE
      (order.filterMap (fun i => toResult (convert_page render fmt i)))).map
        RenderResult.page_num).Nodup :=
    ((hperm.map RenderResult.page_num).nodup_iff).mpr hndS
  have hlt : (List.insertionSort pageLE
      (order.filterMap (fun i => toResult (convert_page render fmt i)))).Sorted
        pageLT := by
    have hne : List.Pairwise
        (fun a b : RenderResult => a.page_num ≠ b.page_num)
        (List.insertionSort pageLE
          (order.filterMap (fun i => toResult (convert_page render fmt i)))) :=
      List.pairwise_map.mp hnd
    exact (List.Pairwise.and hle hne).imp
      (fun h => Nat.lt_of_le_of_ne h.1 h.2)
  exact List.eq_of_perm_of_sorted hperm hlt hs2

theorem writeImages_all_ok (ext : String) (l : List RenderResult) :
    writeImages (fun _ => true) ext l =
      (l.map (fun r => fileName r.page_num ext), none) := by
  induction l with
  | nil => rfl
  | cons r rs ih => simp [writeImages, ih]

theorem writeImages_abort (writeOk : String → Bool) (ext : String)
    (l₁ l₂ : List RenderResult) (r : RenderResult)
    (h1 : ∀ x ∈ l₁, writeOk (fileName x.page_num ext) = true)
    (hr : writeOk (fileName r.page_num ext) = false) :
    writeImages writeOk ext (l₁ ++ r :: l₂) =
      (l₁.map (fun x => fileName x.page_num ext),
        some (fileName r.page_num ext)) := by
  induction l₁ with
  | nil => simp [writeImages, hr]
  | cons a as ih =>
    have ha := h1 a (List.mem_cons_self a as)
    have hrest := ih (fun x hx => h1 x (List.mem_cons_of_mem a hx))
    simp [writeImages, ha, hrest]

theorem filterMap_toResult_eq (render : Nat → Except String String)
    (fmt : String) (l : List Nat) :
    l.filterMap (fun i => toResult (convert_page render fmt i)) =
      (l.filter (fun i => isOkE (render i))).map
        (fun i => ⟨i, okData (render i), imgExt fmt⟩) := by
  induction l with
  | nil => rfl
  | cons i l ih =>
    cases h : render i with
    | ok d =>
      have h1 : toResult (convert_page render fmt i) =
          some (⟨i, okData (render i), imgExt fmt⟩ : RenderResult) := by
        simp [convert_page, toResult, okData, h]
      have h2 : isOkE (render i) = true := by simp [isOkE, h]
      simp only [List.filterMap_cons, List.filter_cons, h1, h2, ih,
        List.map_cons, if_true]
    | error e =>
      have h1 : toResult (convert_page render fmt i) = none := by
        simp [convert_page, toResult, h]
      have h2 : isOkE (render i) = false := by simp [isOkE, h]
      simp only [List.filterMap_cons, List.filter_cons, h1, h2, ih,
        Bool.false_eq_true, if_false]

theorem filterMap_toFailure_eq (render : Nat → Except String String)
    (fmt : String) (l : List Nat) :
    l.filterMap (fun i => toFailure (convert_page render fmt i)) =
      (l.filter (fun i => !(isOkE (render i)))).map (fun i => i + 1) := by
  induction l with
  | nil => rfl
  | cons i l ih =>
    cases h : render i with
    | ok d =>
      have h1 : toFailure (convert_page render fmt i) = none := by
        simp [convert_page, toFailure, h]
      have h2 : (!isOkE (render i)) = false := by simp [isOkE, h]
      simp only [List.filterMap_cons, List.filter_cons, h1, h2, ih,
        Bool.false_eq_true, if_false]
    | error e =>
      have h1 : toFailure (convert_page render fmt i) = some (i + 1) := by
        simp [convert_page, toFailure, h]
      have h2 : (!isOkE (render i)) = true := by simp [isOkE, h]
      simp only [List.filterMap_cons, List.filter_cons, h1, h2, ih,
        List.map_cons, if_true]

theorem successEntries_eq_filter (render : Nat → Except String String)
    (fmt : String) (n : Nat) :
    successEntries render fmt n =
      ((List.range n).filter (fun i => isOkE (render i))).map
        (fun i => ⟨i, okData (render i), imgExt fmt⟩) :=
  filterMap_toResult_eq render fmt (List.range n)

theorem ext_mem_successEntries (render : Nat → Except String String)
    (fmt : String) (n : Nat) (r : RenderResult)
    (hr : r ∈ successEntries render fmt n) : r.ext = imgExt fmt := by
  rw [successEntries_eq_filter] at hr
  obtain ⟨i, _, rfl⟩ := List.mem_map.mp hr
  rfl

theorem run_not_found (parent stem : String) (openResult : Option Nat)
    (od : Option String) (fmt : String) (cz : Bool) (W : Nat)
    (render : Nat → Except String String) (order : List Nat)
    (w : String → Bool) (z : Bool) :
    convert_pdf_to_images parent stem false openResult od fmt cz W render
        order w z =
      { mkdirDone := false, outputDir := "", attempted := [], reported := [],
        ordered := [], savedFiles := [], zipPath := none, zipMembers := [],
        outcome := .retFalse } := rfl

theorem run_open_failed (parent stem : String) (od : Option String)
    (fmt : String) (cz : Bool) (W : Nat)
    (render : Nat → Except String String) (order : List Nat)
    (w : String → Bool) (z : Bool) :
    convert_pdf_to_images parent stem true none od fmt cz W render order w z =
      { mkdirDone := true,
        outputDir := match od with
          | none => pathJoin parent (stem ++ "_images")
          | some d => d,
        attempted := [], reported := [], ordered := [], savedFiles := [],
        zipPath := none, zipMembers := [], outcome := .retFalse } := rfl

theorem run_spec (parent stem : String) (od : Option String) (fmt : String)
    (cz : Bool) (W : Nat) (render : Nat → Except String String)
    (order : List Nat) (w : String → Bool) (z : Bool) (n : Nat)
    (horder : order.Perm (List.range n)) :
    convert_pdf_to_images parent stem true (some n) od fmt cz W render order
        w z =
      { mkdirDone := true,
        outputDir := match od with
          | none => pathJoin parent (stem ++ "_images")
          | some d => d,
        attempted := List.range n,
        reported := order.filterMap
          (fun i => toFailure (convert_page render fmt i)),
        ordered := successEntries render fmt n,
        savedFiles := (writeImages w (chosenExt (successEntries render fmt n))
          (successEntries render fmt n)).1,
        zipPath := if ((writeImages w (chosenExt (successEntries render fmt n))
              (successEntries render fmt n)).2 = none ∧ cz = true ∧
              (writeImages w (chosenExt (successEntries render fmt n))
                (successEntries render fmt n)).1 ≠ []) ∧ z = true
          then some (pathJoin parent (stem ++ "_images.zip")) else none,
        zipMembers := if ((writeImages w
              (chosenExt (successEntries render fmt n))
              (successEntries render fmt n)).2 = none ∧ cz = true ∧
              (writeImages w (chosenExt (successEntries render fmt n))
                (successEntries render fmt n)).1 ≠ []) ∧ z = true
          then (writeImages w (chosenExt (successEntries render fmt n))
            (successEntries render fmt n)).1 else [],
        outcome := if (writeImages w (chosenExt (successEntries render fmt n))
              (successEntries render fmt n)).2 ≠ none then .exn
          else if ((writeImages w (chosenExt (successEntries render fmt n))
              (successEntries render fmt n)).2 = none ∧ cz = true ∧
              (writeImages w (chosenExt (successEntries render fmt n))
                (successEntries render fmt n)).1 ≠ []) ∧ z = false then .exn
          else .retTrue } := by
  have hcol : (order.map (convert_page render fmt)).foldl collectStep ([], []) =
      (order.filterMap (fun i => toResult (convert_page render fmt i)),
        order.filterMap (fun i => toFailure (convert_page render fmt i))) := by
    rw [foldl_collectStep]
    simp [List.filterMap_map, Function.comp_def]
  have hsort := sorted_run_eq render fmt n order horder
  simp only [convert_pdf_to_images, hcol, hsort, Bool.true_eq_false, if_false]

theorem successEntries_length_all_ok (render : Nat → Except String String)
    (fmt : String) (n : Nat)
    (h : ∀ i, i < n → ∃ d, render i = Except.ok d) :
    (successEntries render fmt n).length = n := by
  rw [successEntries_eq_filter, List.length_map]
  have hfil : (List.range n).filter (fun i => isOkE (render i)) =
      List.range n := by
    apply List.filter_eq_self.mpr
    intro a ha
    obtain ⟨d, hd⟩ := h a (List.mem_range.mp ha)
    simp [isOkE, hd]
  rw [hfil, List.length_range]

theorem chosenExt_successEntries (render : Nat → Except String String)
    (fmt : String) (n : Nat) :
    successEntries render fmt n = [] ∨
      chosenExt (successEntries render fmt n) = imgExt fmt := by
  cases h : successEntries render fmt n with
  | nil => exact Or.inl rfl
  | cons r rs =>
    refine Or.inr ?_
    have hr : r ∈ successEntries render fmt n := by
      rw [h]; exact List.mem_cons_self r rs
    have := ext_mem_successEntries render fmt n r hr
    simpa [chosenExt] using this

theorem map_fileName_successEntries (render : Nat → Except String String)
    (fmt : String) (n : Nat) :
    (successEntries render fmt n).map
        (fun r => fileName r.page_num
          (chosenExt (successEntries render fmt n))) =
      ((List.range n).filter (fun i => isOkE (render i))).map
        (fun i => fileName i (imgExt fmt)) := by
  rcases chosenExt_successEntries render fmt n with h | h
  · rw [h]
    have heq := successEntries_eq_filter render fmt n
    rw [h] at heq
    have hL : (List.range n).filter (fun i => isOkE (render i)) = [] := by
      cases hc : (List.range n).filter (fun i => isOkE (render i)) with
      | nil => rfl
      | cons a l => rw [hc] at heq; simp at heq
    rw [hL]
    rfl
  · rw [h, successEntries_eq_filter, List.map_map]
    rfl

theorem run_outcome_all_ok (parent stem : String) (od : Option String)
    (fmt : String) (cz : Bool) (W : Nat)
    (render : Nat → Except String String) (order : List Nat) (n : Nat) :
    (convert_pdf_to_images parent stem true (some n) od fmt cz W render order
        (fun _ => true) true).outcome = RunOutcome.retTrue := by
  simp only [convert_pdf_to_images, Bool.true_eq_false, if_false]
  simp [writeImages_all_ok]

theorem run_fields_some (parent stem : String) (od : Option String)
    (fmt : String) (cz : Bool) (W : Nat)
    (render : Nat → Except String String) (order : List Nat)
    (w : String → Bool) (z : Bool) (n : Nat) :
    (convert_pdf_to_images parent stem true (some n) od fmt cz W render order
        w z).mkdirDone = true ∧
    (convert_pdf_to_images parent stem true (some n) od fmt cz W render order
        w z).attempted = List.range n := by
  constructor <;> rfl

theorem padNum3_data (m : Nat) :
    (padNum3 m).data =
      List.replicate (3 - (toString m).length) '0' ++ (toString m).data := by
  unfold padNum3
  by_cases h : (toString m).length < 3
  · simp only [h, if_true, String.data_append]
  · have h0 : 3 - (toString m).length = 0 := Nat.sub_eq_zero_of_le (by omega)
    simp [h, h0]

theorem padNum3_length (m : Nat) :
    (padNum3 m).length = max 3 (toString m).length := by
  show (if (toString m).length < 3 then
      String.mk (List.replicate (3 - (toString m).length) '0') ++ toString m
    else toString m).length = max 3 (toString m).length
  by_cases h : (toString m).length < 3
  · rw [if_pos h, String.length_append, String.length_mk,
      List.length_replicate]
    omega
  · rw [if_neg h]
    omega

/-! ### Claim theorems -/

/-- C1 counterexample: a 2-page document whose page 0 render fails.  The
collection after the ordering pass has 1 entry, not `P = 2`: failed pages are
printed and dropped, never buffered into `results`. -/
theorem sequencer_entry_count_cex :
    ((convert_pdf_to_images "/tmp" "doc" true (some 2) none "jpeg" true 4
      (fun i => if i = 0 then Except.error "boom" else Except.ok "bytes")
      [0, 1] (fun _ => true) true).ordered).length ≠ 2 := by decide

/-- C1 (amended): after the ordering pass the collection equals the canonical
list with exactly one entry per successfully rendered page, sorted strictly
ascending by page index (hence duplicate-free), independent of the worker
count `W` and of the completion order; it has exactly `P` entries whenever
every page renders successfully. -/
theorem sequencer_ordered_results (parent stem : String) (od : Option String)
    (fmt : String) (cz : Bool) (W : Nat)
    (render : Nat → Except String String) (order : List Nat)
    (w : String → Bool) (z : Bool) (n : Nat)
    (horder : order.Perm (List.range n)) :
    (convert_pdf_to_images parent stem true (some n) od fmt cz W render order
        w z).ordered = successEntries render fmt n ∧
    (convert_pdf_to_images parent stem true (some n) od fmt cz W render order
        w z).ordered.Sorted pageLT ∧
    ((∀ i, i < n → ∃ d, render i = Except.ok d) →
      (convert_pdf_to_images parent stem true (some n) od fmt cz W render
          order w z).ordered.length = n) := by
  have h := run_spec parent stem od fmt cz W render order w z n horder
  refine ⟨by rw [h], ?_, ?_⟩
  · rw [h]
    exact pairwise_lt_successEntries render fmt n
  · intro hall
    rw [h]
    exact successEntries_length_all_ok render fmt n hall

/-- C1 witness: a 2-page all-success run with reversed completion order. -/
theorem sequencer_ordered_results_witness :
    ([1, 0] : List Nat).Perm (List.range 2) ∧
    ((convert_pdf_to_images "/p" "d" true (some 2) none "jpeg" true 1
        (fun _ => Except.ok "b") [1, 0] (fun _ => true) true).ordered.length
      = 2) :=
  ⟨by decide,
    (sequencer_ordered_results "/p" "d" none "jpeg" true 1
      (fun _ => Except.ok "b") [1, 0] (fun _ => true) true 2
      (by decide)).2.2 (fun _ _ => ⟨"b", rfl⟩)⟩

/-- C2: when exactly one page's render fails, all other pages are written
under their original 1-based zero-padded names, the failure is reported with
the 1-based page number `f + 1`, and the run still returns normally. -/
theorem single_failure_isolated (parent stem : String) (od : Option String)
    (fmt : String) (cz : Bool) (W n f : Nat) (msg : String)
    (render : Nat → Except String String) (order : List Nat)
    (horder : order.Perm (List.range n)) (hf : f < n)
    (hfail : render f = Except.error msg)
    (hok : ∀ i, i < n → i ≠ f → ∃ d, render i = Except.ok d) :
    (convert_pdf_to_images parent stem true (some n) od fmt cz W render order
        (fun _ => true) true).savedFiles =
      ((List.range n).filter (fun i => i ≠ f)).map
        (fun i => fileName i (imgExt fmt)) ∧
    (convert_pdf_to_images parent stem true (some n) od fmt cz W render order
        (fun _ => true) true).reported = [f + 1] ∧
    (convert_pdf_to_images parent stem true (some n) od fmt cz W render order
        (fun _ => true) true).outcome = RunOutcome.retTrue := by
  have h := run_spec parent stem od fmt cz W render order (fun _ => true)
    true n horder
  refine ⟨?_, ?_, ?_⟩
  · rw [h]
    show (writeImages (fun _ => true)
        (chosenExt (successEntries render fmt n))
        (successEntries render fmt n)).1 = _
    rw [writeImages_all_ok]
    show (successEntries render fmt n).map _ = _
    rw [map_fileName_successEntries]
    congr 1
    apply List.filter_congr
    intro i hi
    rcases Decidable.em (i = f) with hif | hif
    · subst hif
      simp [isOkE, hfail]
    · obtain ⟨d, hd⟩ := hok i (List.mem_range.mp hi) hif
      simp [isOkE, hd, hif]
  · rw [h]
    show order.filterMap (fun i => toFailure (convert_page render fmt i)) = _
    rw [filterMap_toFailure_eq]
    have hcg : order.filter (fun i => !isOkE (render i)) =
        order.filter (fun i => i == f) := by
      apply List.filter_congr
      intro i hi
      have hin : i < n := List.mem_range.mp (horder.mem_iff.mp hi)
      rcases Decidable.em (i = f) with hif | hif
      · subst hif
        simp [isOkE, hfail]
      · obtain ⟨d, hd⟩ := hok i hin hif
        simp [isOkE, hd, hif]
    rw [hcg, List.filter_beq]
    have hcount : order.count f = 1 := by
      rw [horder.count_eq f]
      exact List.count_eq_one_of_mem (List.nodup_range n)
        (List.mem_range.mpr hf)
    rw [hcount]
    rfl
  · rw [h]
    show (if (writeImages (fun _ => true)
        (chosenExt (successEntries render fmt n))
        (successEntries render fmt n)).2 ≠ none then RunOutcome.exn
      else _) = RunOutcome.retTrue
    rw [writeImages_all_ok]
    simp

/-- C2 witness: a 5-page document whose page index 2 is corrupt, completed
out of order; pages 001, 002, 004, 005 are written, 003 is absent, and the
failure is reported as page 3. -/
theorem single_failure_isolated_witness :
    ([4, 2, 0, 3, 1] : List Nat).Perm (List.range 5) ∧
    (convert_pdf_to_images "/p" "doc" true (some 5) none "jpeg" true 4
        (fun i => if i = 2 then Except.error "corrupt" else Except.ok "b")
        [4, 2, 0, 3, 1] (fun _ => true) true).savedFiles =
      ["page_001.jpg", "page_002.jpg", "page_004.jpg", "page_005.jpg"] ∧
    (convert_pdf_to_images "/p" "doc" true (some 5) none "jpeg" true 4
        (fun i => if i = 2 then Except.error "corrupt" else Except.ok "b")
        [4, 2, 0, 3, 1] (fun _ => true) true).reported = [3] ∧
    (convert_pdf_to_images "/p" "doc" true (some 5) none "jpeg" true 4
        (fun i => if i = 2 then Except.error "corrupt" else Except.ok "b")
        [4, 2, 0, 3, 1] (fun _ => true) true).outcome =
      RunOutcome.retTrue :=
  have h := single_failure_isolated "/p" "doc" none "jpeg" true 4 5 2
    "corrupt" (fun i => if i = 2 then Except.error "corrupt" else
      Except.ok "b") [4, 2, 0, 3, 1] (by decide) (by decide) rfl
    (fun i _ hne => ⟨"b", if_neg hne⟩)
  ⟨by decide, h.1.trans (by decide), h.2.1, h.2.2⟩

/-- C3: each successful page index `i` is written as
`page_NNN.<ext>` with `NNN` the decimal digits of `i + 1` left zero-padded to
at least 3 digits; with no output directory given the directory defaults to
`<stem>_images` beside the source; the archive, when created, is
`<stem>_images.zip` beside the source. -/
theorem output_naming (parent stem : String) (fmt : String) (cz : Bool)
    (W : Nat) (render : Nat → Except String String) (order : List Nat)
    (z : Bool) (n : Nat) (horder : order.Perm (List.range n)) :
    (convert_pdf_to_images parent stem true (some n) none fmt cz W render
        order (fun _ => true) z).outputDir =
      parent ++ "/" ++ (stem ++ "_images") ∧
    (convert_pdf_to_images parent stem true (some n) none fmt cz W render
        order (fun _ => true) z).savedFiles =
      (convert_pdf_to_images parent stem true (some n) none fmt cz W render
        order (fun _ => true) z).ordered.map
          (fun r => "page_" ++ padNum3 (r.page_num + 1) ++ "." ++
            chosenExt (convert_pdf_to_images parent stem true (some n) none
              fmt cz W render order (fun _ => true) z).ordered) ∧
    (∀ m : Nat, (padNum3 m).data =
        List.replicate (3 - (toString m).length) '0' ++ (toString m).data ∧
      (padNum3 m).length = max 3 (toString m).length) ∧
    (cz = true → z = true →
      (convert_pdf_to_images parent stem true (some n) none fmt cz W render
        order (fun _ => true) z).savedFiles ≠ [] →
      (convert_pdf_to_images parent stem true (some n) none fmt cz W render
        order (fun _ => true) z).zipPath =
        some (parent ++ "/" ++ (stem ++ "_images.zip"))) := by
  have h := run_spec parent stem none fmt cz W render order (fun _ => true)
    z n horder
  refine ⟨by rw [h]; rfl, ?_, fun m => ⟨padNum3_data m, padNum3_length m⟩, ?_⟩
  · rw [h]
    show (writeImages (fun _ => true)
        (chosenExt (successEntries render fmt n))
        (successEntries render fmt n)).1 = _
    rw [writeImages_all_ok]
    rfl
  · intro hcz hz hne
    rw [h] at hne ⊢
    have hsne : (writeImages (fun _ => true)
        (chosenExt (successEntries render fmt n))
        (successEntries render fmt n)).1 ≠ [] := hne
    show (if ((writeImages (fun _ => true)
        (chosenExt (successEntries render fmt n))
        (successEntries render fmt n)).2 = none ∧ cz = true ∧
        (writeImages (fun _ => true)
          (chosenExt (successEntries render fmt n))
          (successEntries render fmt n)).1 ≠ []) ∧ z = true
      then some (pathJoin parent (stem ++ "_images.zip")) else none) = _
    rw [if_pos ⟨⟨by rw [writeImages_all_ok], hcz, hsne⟩, hz⟩]
    rfl

/-- C3 witness: a 2-page jpeg run with default output directory and archive. -/
theorem output_naming_witness :
    ([0, 1] : List Nat).Perm (List.range 2) ∧
    (convert_pdf_to_images "/p" "doc" true (some 2) none "jpeg" true 1
        (fun _ => Except.ok "b") [0, 1] (fun _ => true) true).outputDir =
      "/p" ++ "/" ++ ("doc" ++ "_images") ∧
    (convert_pdf_to_images "/p" "doc" true (some 2) none "jpeg" true 1
        (fun _ => Except.ok "b") [0, 1] (fun _ => true) true).zipPath =
      some ("/p" ++ "/" ++ ("doc" ++ "_images.zip")) :=
  have h := output_naming "/p" "doc" "jpeg" true 1 (fun _ => Except.ok "b")
    [0, 1] true 2 (by decide)
  ⟨by decide, h.1, h.2.2.2 rfl rfl (by decide)⟩

/-- C4 counterexample: a 0-page document is fully converted with zero pages
processed (no tasks, no files), yet the process exits with code 0 — the
claimed failure exit for runs processing no pages does not happen. -/
theorem exit_contract_cex :
    (mainRun 85 "/p" "doc" true (some 0) none "jpeg" false 4
        (fun _ => Except.ok "b") [] (fun _ => true) true).exitCode = 0 ∧
    (mainRun 85 "/p" "doc" true (some 0) none "jpeg" false 4
        (fun _ => Except.ok "b") [] (fun _ => true) true).run =
      some (⟨true, "/p/doc_images", [], [], [], [], none, [],
        RunOutcome.retTrue⟩ : RunResult) := by decide

/-- C4 (amended): in the absence of write and archive IO failures the process
exits 0 exactly when the quality passes validation, the source file exists
and the document metadata loads; whether any page was actually processed is
irrelevant (an empty or all-failing document still exits 0).  On success the
output directory was created and all `P` pages were submitted. -/
theorem exit_contract (q : Int) (parent stem : String) (pathExists : Bool)
    (openResult : Option Nat) (od : Option String) (fmt : String) (nz : Bool)
    (W : Nat) (render : Nat → Except String String) (order : List Nat) :
    ((mainRun q parent stem pathExists openResult od fmt nz W render order
        (fun _ => true) true).exitCode = 0 ↔
      (1 ≤ q ∧ q ≤ 100 ∧ pathExists = true ∧ openResult ≠ none)) ∧
    ((mainRun q parent stem pathExists openResult od fmt nz W render order
        (fun _ => true) true).exitCode = 0 →
      ∃ r, (mainRun q parent stem pathExists openResult od fmt nz W render
          order (fun _ => true) true).run = some r ∧
        r.mkdirDone = true ∧ r.attempted = List.range (openResult.getD 0)) := by
  by_cases hq : q < 1 ∨ 100 < q
  · have hm : (mainRun q parent stem pathExists openResult od fmt nz W render
        order (fun _ => true) true).exitCode = 1 := by
      rw [mainRun, if_pos hq]
    rw [hm]
    constructor
    · constructor
      · intro h0
        exact absurd h0 (by simp)
      · rintro ⟨h1, h2, -⟩
        omega
    · intro h0
      exact absurd h0 (by simp)
  · cases hpe : pathExists with
    | false =>
      have hm : (mainRun q parent stem false openResult od fmt nz W render
          order (fun _ => true) true).exitCode = 1 := by
        rw [mainRun, if_neg hq]
        show (match (convert_pdf_to_images parent stem false openResult od
            fmt (!nz) W render order (fun _ => true) true).outcome with
          | RunOutcome.retTrue => 0
          | RunOutcome.retFalse => 1
          | RunOutcome.exn => 1) = 1
        rw [run_not_found]
      rw [hm]
      constructor
      · simp
      · intro h0
        exact absurd h0 (by simp)
    | true =>
      cases hopen : openResult with
      | none =>
        have hm : (mainRun q parent stem true none od fmt nz W render
            order (fun _ => true) true).exitCode = 1 := by
          rw [mainRun, if_neg hq]
          show (match (convert_pdf_to_images parent stem true none od
              fmt (!nz) W render order (fun _ => true) true).outcome with
            | RunOutcome.retTrue => 0
            | RunOutcome.retFalse => 1
            | RunOutcome.exn => 1) = 1
          rw [run_open_failed]
        rw [hm]
        constructor
        · simp
        · intro h0
          exact absurd h0 (by simp)
      | some n =>
        have hm : (mainRun q parent stem true (some n) od fmt nz W render
            order (fun _ => true) true).exitCode = 0 := by
          rw [mainRun, if_neg hq]
          show (match (convert_pdf_to_images parent stem true (some n) od
              fmt (!nz) W render order (fun _ => true) true).outcome with
            | RunOutcome.retTrue => 0
            | RunOutcome.retFalse => 1
            | RunOutcome.exn => 1) = 0
          rw [run_outcome_all_ok]
        have hrun : (mainRun q parent stem true (some n) od fmt nz W render
            order (fun _ => true) true).run =
          some (convert_pdf_to_images parent stem true (some n) od fmt (!nz)
            W render order (fun _ => true) true) := by
          rw [mainRun, if_neg hq]
        rw [hm]
        constructor
        · constructor
          · intro _
            exact ⟨by omega, by omega, rfl, by simp⟩
          · intro _
            rfl
        · intro _
          exact ⟨_, hrun, (run_fields_some parent stem od fmt (!nz) W render
            order (fun _ => true) true n).1,
            (run_fields_some parent stem od fmt (!nz) W render
              order (fun _ => true) true n).2⟩

/-- C4 witness: a 2-page run with valid quality exits 0. -/
theorem exit_contract_witness :
    (mainRun 85 "/p" "doc" true (some 2) none "jpeg" false 1
        (fun _ => Except.ok "b") [0, 1] (fun _ => true) true).exitCode = 0 :=
  (exit_contract 85 "/p" "doc" true (some 2) none "jpeg" false 1
    (fun _ => Except.ok "b") [0, 1]).1.mpr
    ⟨by decide, by decide, rfl, by decide⟩

/-- C5 counterexample: three pages render fine but the write of `page_002`
fails; `page_003`, whose write would succeed, is never written (only
`page_001` is on disk) and the run dies with an uncaught exception — the
write loop has no per-file failure isolation. -/
theorem write_failure_aborts_cex :
    (convert_pdf_to_images "/p" "doc" true (some 3) none "jpeg" false 4
        (fun _ => Except.ok "b") [0, 1, 2]
        (fun s => !(s == "page_002.jpg")) true).savedFiles =
      ["page_001.jpg"] ∧
    (convert_pdf_to_images "/p" "doc" true (some 3) none "jpeg" false 4
        (fun _ => Except.ok "b") [0, 1, 2]
        (fun s => !(s == "page_002.jpg")) true).outcome =
      RunOutcome.exn := by decide

/-- C5 (amended): a failure while writing one page's file aborts the run:
the files written before it remain on disk, no later page's file is written,
no archive is created, and the exception propagates out of the function. -/
theorem write_failure_aborts (parent stem : String) (od : Option String)
    (fmt : String) (cz : Bool) (W : Nat)
    (render : Nat → Except String String) (order : List Nat)
    (w : String → Bool) (z : Bool) (n : Nat)
    (l₁ l₂ : List RenderResult) (r : RenderResult)
    (horder : order.Perm (List.range n))
    (hdecomp : successEntries render fmt n = l₁ ++ r :: l₂)
    (h1 : ∀ x ∈ l₁, w (fileName x.page_num
      (chosenExt (successEntries render fmt n))) = true)
    (hr : w (fileName r.page_num
      (chosenExt (successEntries render fmt n))) = false) :
    (convert_pdf_to_images parent stem true (some n) od fmt cz W render order
        w z).savedFiles = l₁.map (fun x => fileName x.page_num
          (chosenExt (successEntries render fmt n))) ∧
    (convert_pdf_to_images parent stem true (some n) od fmt cz W render order
        w z).outcome = RunOutcome.exn ∧
    (convert_pdf_to_images parent stem true (some n) od fmt cz W render order
        w z).zipPath = none := by
  have h := run_spec parent stem od fmt cz W render order w z n horder
  have habort := writeImages_abort w
    (chosenExt (successEntries render fmt n)) l₁ l₂ r h1 hr
  rw [← hdecomp] at habort
  refine ⟨?_, ?_, ?_⟩ <;> rw [h] <;> simp only [habort] <;> simp

/-- C5 witness: the middle write of a 3-page run fails; only `page_001`
remains and the run aborts. -/
theorem write_failure_aborts_witness :
    (convert_pdf_to_images "/q" "doc" true (some 3) none "jpeg" true 2
        (fun _ => Except.ok "b") [2, 1, 0]
        (fun s => !(s == "page_002.jpg")) true).savedFiles =
      ["page_001.jpg"] ∧
    (convert_pdf_to_images "/q" "doc" true (some 3) none "jpeg" true 2
        (fun _ => Except.ok "b") [2, 1, 0]
        (fun s => !(s == "page_002.jpg")) true).outcome = RunOutcome.exn :=
  have h := write_failure_aborts "/q" "doc" none "jpeg" true 2
    (fun _ => Except.ok "b") [2, 1, 0] (fun s => !(s == "page_002.jpg"))
    true 3 [⟨0, "b", "jpg"⟩] [⟨2, "b", "jpg"⟩] ⟨1, "b", "jpg"⟩
    (by decide) (by decide) (by decide) (by decide)
  ⟨h.1.trans (by decide), h.2.1⟩

/-- C6 counterexample: one page is converted and written, archiving is
enabled and fails; the per-page file does remain, but the run ends with an
uncaught exception instead of succeeding with a warning. -/
theorem zip_failure_fails_run_cex :
    (convert_pdf_to_images "/p" "doc" true (some 1) none "jpeg" true 4
        (fun _ => Except.ok "b") [0] (fun _ => true) false).savedFiles =
      ["page_001.jpg"] ∧
    (convert_pdf_to_images "/p" "doc" true (some 1) none "jpeg" true 4
        (fun _ => Except.ok "b") [0] (fun _ => true) false).outcome =
      RunOutcome.exn := by decide

/-- C6 (amended): when archive creation fails, the per-page files already
written are exactly those of a successful-archive run (nothing is deleted),
and no archive is recorded; but the failure is not downgraded to a warning:
whenever at least one page file was written the exception propagates and the
run ends abnormally. -/
theorem zip_failure_keeps_files (parent stem : String) (od : Option String)
    (fmt : String) (W : Nat) (render : Nat → Except String String)
    (order : List Nat) (n : Nat) (horder : order.Perm (List.range n)) :
    (convert_pdf_to_images parent stem true (some n) od fmt true W render
        order (fun _ => true) false).savedFiles =
      (convert_pdf_to_images parent stem true (some n) od fmt true W render
        order (fun _ => true) true).savedFiles ∧
    ((convert_pdf_to_images parent stem true (some n) od fmt true W render
        order (fun _ => true) false).savedFiles ≠ [] →
      (convert_pdf_to_images parent stem true (some n) od fmt true W render
        order (fun _ => true) false).outcome = RunOutcome.exn ∧
      (convert_pdf_to_images parent stem true (some n) od fmt true W render
        order (fun _ => true) false).zipPath = none) ∧
    ((convert_pdf_to_images parent stem true (some n) od fmt true W render
        order (fun _ => true) false).savedFiles = [] →
      (convert_pdf_to_images parent stem true (some n) od fmt true W render
        order (fun _ => true) false).outcome = RunOutcome.retTrue) := by
  have hF := run_spec parent stem od fmt true W render order (fun _ => true)
    false n horder
  have hT := run_spec parent stem od fmt true W render order (fun _ => true)
    true n horder
  refine ⟨?_, ?_, ?_⟩
  · rw [hF, hT]
  · intro hne
    rw [hF] at hne
    rw [hF]
    simp only [writeImages_all_ok] at hne ⊢
    simp at hne
    constructor
    · simp [hne]
    · simp
  · intro hemp
    rw [hF] at hemp
    rw [hF]
    simp only [writeImages_all_ok] at hemp ⊢
    simp at hemp
    simp [hemp]

/-- C6 witness: a 1-page run with failing archive keeps its page file but
aborts. -/
theorem zip_failure_keeps_files_witness :
    (convert_pdf_to_images "/p" "d6" true (some 1) none "jpeg" true 4
        (fun _ => Except.ok "b") [0] (fun _ => true) false).savedFiles =
      (convert_pdf_to_images "/p" "d6" true (some 1) none "jpeg" true 4
        (fun _ => Except.ok "b") [0] (fun _ => true) true).savedFiles ∧
    (convert_pdf_to_images "/p" "d6" true (some 1) none "jpeg" true 4
        (fun _ => Except.ok "b") [0] (fun _ => true) false).outcome =
      RunOutcome.exn :=
  have h := zip_failure_keeps_files "/p" "d6" none "jpeg" 4
    (fun _ => Except.ok "b") [0] 1 (by decide)
  ⟨h.1, (h.2.1 (by decide)).1⟩

/-- C7: with archiving enabled and at least one page file written, the
archive is created beside the source, its members are exactly the written
files (base names, in the order they were written), the written files are the
sorted successful results' names in ascending page order, and the per-page
files all remain afterwards. -/
theorem archive_members_match (parent stem : String) (od : Option String)
    (fmt : String) (W : Nat) (render : Nat → Except String String)
    (order : List Nat) (n : Nat) (horder : order.Perm (List.range n))
    (hne : (convert_pdf_to_images parent stem true (some n) od fmt true W
      render order (fun _ => true) true).savedFiles ≠ []) :
    (convert_pdf_to_images parent stem true (some n) od fmt true W render
        order (fun _ => true) true).zipMembers =
      (convert_pdf_to_images parent stem true (some n) od fmt true W render
        order (fun _ => true) true).savedFiles ∧
    (convert_pdf_to_images parent stem true (some n) od fmt true W render
        order (fun _ => true) true).zipPath =
      some (pathJoin parent (stem ++ "_images.zip")) ∧
    (convert_pdf_to_images parent stem true (some n) od fmt true W render
        order (fun _ => true) true).savedFiles =
      (convert_pdf_to_images parent stem true (some n) od fmt true W render
          order (fun _ => true) true).ordered.map
        (fun r => fileName r.page_num
          (chosenExt (convert_pdf_to_images parent stem true (some n) od fmt
            true W render order (fun _ => true) true).ordered)) ∧
    (convert_pdf_to_images parent stem true (some n) od fmt true W render
        order (fun _ => true) true).ordered.Sorted pageLT := by
  have h := run_spec parent stem od fmt true W render order (fun _ => true)
    true n horder
  rw [h] at hne
  simp only [writeImages_all_ok] at hne
  simp at hne
  refine ⟨?_, ?_, ?_, ?_⟩
  · rw [h]
    simp only [writeImages_all_ok]
    simp [hne]
  · rw [h]
    simp only [writeImages_all_ok]
    simp [hne]
  · rw [h]
    simp only [writeImages_all_ok]
  · rw [h]
    exact pairwise_lt_successEntries render fmt n

/-- C7 witness: a 2-page archive run. -/
theorem archive_members_match_witness :
    (convert_pdf_to_images "/p" "d7" true (some 2) none "jpeg" true 4
        (fun _ => Except.ok "b") [1, 0] (fun _ => true) true).zipMembers =
      (convert_pdf_to_images "/p" "d7" true (some 2) none "jpeg" true 4
        (fun _ => Except.ok "b") [1, 0] (fun _ => true) true).savedFiles ∧
    (convert_pdf_to_images "/p" "d7" true (some 2) none "jpeg" true 4
        (fun _ => Except.ok "b") [1, 0] (fun _ => true) true).zipPath =
      some "/p/d7_images.zip" :=
  have h := archive_members_match "/p" "d7" none "jpeg" 4
    (fun _ => Except.ok "b") [1, 0] 2 (by decide) (by decide)
  ⟨h.1, h.2.1.trans (by decide)⟩

/-- C8: a 0-page document yields an empty output directory (created), no page
files, no archive even with archiving enabled, a normal return, and exit
code 0. -/
theorem empty_document_run (parent stem : String) (od : Option String)
    (fmt : String) (nz : Bool) (W : Nat)
    (render : Nat → Except String String) (order : List Nat)
    (w : String → Bool) (z : Bool) (q : Int)
    (horder : order.Perm (List.range 0)) (hq1 : 1 ≤ q) (hq2 : q ≤ 100) :
    (convert_pdf_to_images parent stem true (some 0) od fmt (!nz) W render
        order w z).savedFiles = [] ∧
    (convert_pdf_to_images parent stem true (some 0) od fmt (!nz) W render
        order w z).zipPath = none ∧
    (convert_pdf_to_images parent stem true (some 0) od fmt (!nz) W render
        order w z).zipMembers = [] ∧
    (convert_pdf_to_images parent stem true (some 0) od fmt (!nz) W render
        order w z).outcome = RunOutcome.retTrue ∧
    (convert_pdf_to_images parent stem true (some 0) od fmt (!nz) W render
        order w z).mkdirDone = true ∧
    (mainRun q parent stem true (some 0) od fmt nz W render order w
        z).exitCode = 0 := by
  have h := run_spec parent stem od fmt (!nz) W render order w z 0 horder
  have hout : (convert_pdf_to_images parent stem true (some 0) od fmt (!nz)
      W render order w z).outcome = RunOutcome.retTrue := by
    rw [h]
    simp [successEntries, writeImages]
  refine ⟨?_, ?_, ?_, hout, ?_, ?_⟩
  · rw [h]
    simp [successEntries, writeImages]
  · rw [h]
    simp [successEntries, writeImages]
  · rw [h]
    simp [successEntries, writeImages]
  · rw [h]
  · rw [mainRun, if_neg (by omega)]
    show (match (convert_pdf_to_images parent stem true (some 0) od fmt (!nz)
        W render order w z).outcome with
      | RunOutcome.retTrue => 0
      | RunOutcome.retFalse => 1
      | RunOutcome.exn => 1) = 0
    rw [hout]

/-- C8 witness: an empty document with archiving enabled exits 0 with no
files and no archive. -/
theorem empty_document_run_witness :
    (convert_pdf_to_images "/p" "d8" true (some 0) none "jpeg" (!false) 4
        (fun _ => Except.error "x") [] (fun _ => true) true).savedFiles =
      [] ∧
    (convert_pdf_to_images "/p" "d8" true (some 0) none "jpeg" (!false) 4
        (fun _ => Except.error "x") [] (fun _ => true) true).zipPath =
      none ∧
    (mainRun 85 "/p" "d8" true (some 0) none "jpeg" false 4
        (fun _ => Except.error "x") [] (fun _ => true) true).exitCode = 0 :=
  have h := empty_document_run "/p" "d8" none "jpeg" false 4
    (fun _ => Except.error "x") [] (fun _ => true) true 85 (by decide)
    (by decide) (by decide)
  ⟨h.1, h.2.1, h.2.2.2.2.2⟩

/-- C9: a quality outside 1..100 is rejected in `main` before any conversion:
exit code 1, the converter is never invoked, no run happens. -/
theorem quality_validation (q : Int) (parent stem : String)
    (pathExists : Bool) (openResult : Option Nat) (od : Option String)
    (fmt : String) (nz : Bool) (W : Nat)
    (render : Nat → Except String String) (order : List Nat)
    (w : String → Bool) (z : Bool) (hq : q < 1 ∨ 100 < q) :
    mainRun q parent stem pathExists openResult od fmt nz W render order w z =
      ⟨1, false, none⟩ := by
  rw [mainRun, if_pos hq]

/-- C9 witness: quality 0 and quality 101 are both rejected up front. -/
theorem quality_validation_witness :
    mainRun 0 "/p" "d9" true (some 3) none "jpeg" false 4
        (fun _ => Except.ok "b") [0, 1, 2] (fun _ => true) true =
      ⟨1, false, none⟩ ∧
    mainRun 101 "/p" "d9" true (some 3) none "jpeg" false 4
        (fun _ => Except.ok "b") [0, 1, 2] (fun _ => true) true =
      ⟨1, false, none⟩ :=
  ⟨quality_validation 0 "/p" "d9" true (some 3) none "jpeg" false 4
      (fun _ => Except.ok "b") [0, 1, 2] (fun _ => true) true
      (Or.inl (by decide)),
    quality_validation 101 "/p" "d9" true (some 3) none "jpeg" false 4
      (fun _ => Except.ok "b") [0, 1, 2] (fun _ => true) true
      (Or.inr (by decide))⟩

/-- C10: every written file uses the extension of the first entry of the
sorted result list (the lowest successful page index) rather than its own
recorded extension; with no successful results the default `'jpg'` is chosen
and nothing is written. -/
theorem first_result_extension (parent stem : String) (od : Option String)
    (fmt : String) (cz : Bool) (W : Nat)
    (render : Nat → Except String String) (order : List Nat) (z : Bool)
    (n : Nat) (horder : order.Perm (List.range n)) :
    (convert_pdf_to_images parent stem true (some n) od fmt cz W render order
        (fun _ => true) z).savedFiles =
      (convert_pdf_to_images parent stem true (some n) od fmt cz W render
          order (fun _ => true) z).ordered.map
        (fun r => fileName r.page_num
          (chosenExt (convert_pdf_to_images parent stem true (some n) od fmt
            cz W render order (fun _ => true) z).ordered)) ∧
    (∀ r rs, (convert_pdf_to_images parent stem true (some n) od fmt cz W
        render order (fun _ => true) z).ordered = r :: rs →
      chosenExt (convert_pdf_to_images parent stem true (some n) od fmt cz W
        render order (fun _ => true) z).ordered = r.ext) ∧
    ((convert_pdf_to_images parent stem true (some n) od fmt cz W render
        order (fun _ => true) z).ordered = [] →
      (convert_pdf_to_images parent stem true (some n) od fmt cz W render
        order (fun _ => true) z).savedFiles = [] ∧
      chosenExt (convert_pdf_to_images parent stem true (some n) od fmt cz W
        render order (fun _ => true) z).ordered = "jpg") ∧
    (convert_pdf_to_images parent stem true (some n) od fmt cz W render order
        (fun _ => true) z).ordered.Sorted pageLT := by
  have h := run_spec parent stem od fmt cz W render order (fun _ => true) z
    n horder
  refine ⟨?_, ?_, ?_, ?_⟩
  · rw [h]
    simp only [writeImages_all_ok]
  · intro r rs hcons
    rw [h] at hcons ⊢
    rw [hcons]
    rfl
  · intro hemp
    rw [h] at hemp
    have hemp' : successEntries render fmt n = [] := hemp
    constructor
    · rw [h]
      show (writeImages (fun _ => true)
        (chosenExt (successEntries render fmt n))
        (successEntries render fmt n)).1 = []
      rw [hemp']
      rfl
    · rw [h]
      show chosenExt (successEntries render fmt n) = "jpg"
      rw [hemp']
      rfl
  · rw [h]
    exact pairwise_lt_successEntries render fmt n

/-- C10 witness: page 0 fails, page 1 succeeds; the single written file is
`page_002.jpg`, named with the first sorted result's extension. -/
theorem first_result_extension_witness :
    (convert_pdf_to_images "/p" "dA" true (some 2) none "jpeg" true 1
        (fun i => if i = 0 then Except.error "x" else Except.ok "b") [0, 1]
        (fun _ => true) true).savedFiles =
      (convert_pdf_to_images "/p" "dA" true (some 2) none "jpeg" true 1
          (fun i => if i = 0 then Except.error "x" else Except.ok "b") [0, 1]
          (fun _ => true) true).ordered.map
        (fun r => fileName r.page_num
          (chosenExt (convert_pdf_to_images "/p" "dA" true (some 2) none
            "jpeg" true 1 (fun i => if i = 0 then Except.error "x" else
              Except.ok "b") [0, 1] (fun _ => true) true).ordered)) ∧
    (convert_pdf_to_images "/p" "dA" true (some 2) none "jpeg" true 1
        (fun i => if i = 0 then Except.error "x" else Except.ok "b") [0, 1]
        (fun _ => true) true).savedFiles = ["page_002.jpg"] :=
  have h := first_result_extension "/p" "dA" none "jpeg" true 1
    (fun i => if i = 0 then Except.error "x" else Except.ok "b") [0, 1] true
    2 (by decide)
  ⟨h.1, h.1.trans (by decide)⟩
